import Mathlib

/-!
Verification of the `aoscbootstrap` driver (`src/main.rs`) against its
specification.  The pure helpers of `main.rs` are embedded directly; the
external modules it calls (`network`, `solv`, `fs`, `install`, `guest`) are
not part of the repository's sources, so their successful results are
supplied by an explicit environment and the driver's own control flow is
modelled as a function from that environment to an outcome and a trace of
observable actions.
-/

namespace AOSCBootstrap

/-- One resolved package as the solver adapter emits it (`solv::PackageMeta`);
`main.rs` only reads the `name` and `path` fields. -/
structure PackageMeta where
  name : String
  path : String
  deriving DecidableEq

/-- Characters `Char.isWhitespace` recognises, dropped from both ends, as
Rust's `str::trim` does (`line.trim()` at main.rs line 54). -/
def trimChars (cs : List Char) : List Char :=
  ((cs.dropWhile Char.isWhitespace).reverse.dropWhile Char.isWhitespace).reverse

/-- Rust `str::trim` on the string's characters. -/
def rustTrim (s : String) : String := ⟨trimChars s.data⟩

/-- Rust `line.starts_with('#')` (main.rs line 50). -/
def startsWithHash (s : String) : Bool :=
  match s.data with
  | [] => false
  | c :: _ => c == '#'

/-- Split a character list at `/` separators, keeping empty components
(they are filtered afterwards, as `Path::components` normalisation does). -/
def splitSlashGo : List Char → List Char → List (List Char)
  | [], acc => [acc.reverse]
  | c :: rest, acc =>
      if c == '/' then acc.reverse :: splitSlashGo rest []
      else splitSlashGo rest (c :: acc)

/-- Rust `Path::new(s).file_name()` (main.rs lines 24-26 and 67-69): the last
path component after dropping empty and `.` components, unless that last
component is `..` (or there is no component at all), in which case `None`. -/
def pathFileName (p : String) : Option String :=
  let comps := (splitSlashGo p.data []).filter (fun c => !(c == []) && !(c == ['.']))
  match comps.getLast? with
  | none => none
  | some c => if c == ['.', '.'] then none else some ⟨c⟩

/-- The per-line step of `collect_packages_from_lists` (main.rs lines 47-56):
a line is skipped when it starts with `#` or is (literally) empty; otherwise
its trimmed text is kept.  The emptiness test runs on the raw line, before
any trimming. -/
def collectLine (line : String) : Option String :=
  if startsWithHash line || line == "" then none
  else some (rustTrim line)

/-- `collect_packages_from_lists` (main.rs lines 40-60), with each input file
given by its list of lines (`BufRead::lines` yields lines without the
newline); the files' results are appended in order into one vector. -/
def collect_packages_from_lists (files : List (List String)) : List String :=
  (files.map (fun lines => lines.filterMap collectLine)).flatten

/-- The include-file filter as the specification words it: a line is skipped
when it begins with `#` or is empty AFTER trimming; kept lines are trimmed.
Stated only to compare against `collectLine`, which tests emptiness before
trimming. -/
def collectLineSpec (line : String) : Option String :=
  if startsWithHash line || rustTrim line == "" then none
  else some (rustTrim line)

/-- `collect_filenames` (main.rs lines 62-76): the basename of every
package's `path`, in order, failing at the first package whose path has no
final component. -/
def collect_filenames : List PackageMeta → Except String (List String)
  | [] => .ok []
  | p :: rest =>
    match pathFileName p.path with
    | none => .error "Unable to determine package filename"
    | some fn =>
      match collect_filenames rest with
      | .error e => .error e
      | .ok fns => .ok (fn :: fns)

/-- `extract_packages` (main.rs lines 20-38): packages are processed in list
order; for each one its archive basename is derived (failing with the
filename error when there is none), then the archive is opened and extracted
— that combined effect of `File::open` plus `install::extract_deb` on one
archive file is abstracted as `env : String → Except String Unit`.  Returns
the overall result together with the archive filenames opened, in order. -/
def extract_packages (env : String → Except String Unit) :
    List PackageMeta → Except String Unit × List String
  | [] => (.ok (), [])
  | p :: rest =>
    match pathFileName p.path with
    | none => (.error "Unable to determine package filename", [])
    | some fn =>
      match env fn with
      | .error e => (.error e, [fn])
      | .ok _ =>
        let r := extract_packages env rest
        (r.1, fn :: r.2)

/-- The quantities `check_disk_usage`'s error message reports
(main.rs line 101): the required kilobytes (`ByteSize::kb(required)`), the
available bytes (`ByteSize::b(available)`), and the deficit
`required - available / 1024` in kilobytes. -/
structure DiskSpaceError where
  required_kb : Nat
  available_bytes : Nat
  deficit_kb : Nat
  deriving DecidableEq

/-- `check_disk_usage` (main.rs lines 96-105), with the successful result of
`fs3::available_space` (free bytes on the filesystem holding the target)
passed in as `available`. -/
def check_disk_usage (required : Nat) (available : Nat) : Except DiskSpaceError Unit :=
  if available / 1024 < required then
    .error ⟨required, available, required - available / 1024⟩
  else
    .ok ()

/-- The Rust cast `v as u64` for `v : i64` (two's-complement wraparound),
applied to `t.get_size_change()` at main.rs lines 163, 173 and 189. -/
def i64_as_u64 (v : Int) : Nat := (v % (2 ^ 64)).toNat

/-- `include_extra_scripts` (main.rs lines 78-94): `extra_scripts` is the
`--scripts` values (`none` when the flag is absent), `contents` gives each
script file's bytes, and `output` is the install script written so far.
When scripts are present, a herald line is written once, then for each
script a banner `\n# === {path}\n` followed by the file's exact contents. -/
def include_extra_scripts (extra_scripts : Option (List String))
    (contents : String → String) (output : String) : String :=
  match extra_scripts with
  | none => output
  | some scripts =>
    scripts.foldl (fun acc s => acc ++ ("\n# === " ++ s ++ "\n") ++ contents s)
      (output ++ "\necho \x27Running additional scripts ...\x27;")

/-- main.rs lines 136-140: append the `all` architecture when it is not
already in the `--arch` list. -/
def append_all_arch (arches : List String) : List String :=
  if arches.contains "all" then arches else arches ++ ["all"]

/-- The two package lists of the bootstrap configuration
(`install::read_config`; the only fields main.rs uses). -/
structure Config where
  stub_packages : List String
  base_packages : List String

/-- One solver result (`solv::calculate_deps`): the resolved package
sequence (`create_metadata`) and the signed installed-size delta in
kilobytes (`get_size_change`, an `i64`). -/
structure ResolvedSet where
  packages : List PackageMeta
  size_change : Int

/-- The command-line inputs `main` reads (main.rs lines 109-119), with each
`--include-files` file given by its lines. -/
structure Args where
  arches : List String
  dl_only : Bool
  s1_only : Bool
  clean_up : Bool
  includes : List String
  include_file_lines : List (List String)
  extra_scripts : Option (List String)

/-- Results of the external calls `main` makes (configuration reader,
manifest fetcher, solver, free-space query, archive extraction, guest), so
that the driver's own control flow can be followed exactly.  `available n`
is the free-bytes answer of the `n`-th `check_disk_usage` call; `extract`
is the per-archive open-and-extract effect; `guest_ok` is whether the guest
shell exits successfully. -/
structure Env where
  config : Config
  manifests : List String
  resolve : List String → ResolvedSet
  available : Nat → Nat
  extract : String → Except String Unit
  script_name : String
  guest_ok : Bool

/-- Observable actions of `main` (main.rs lines 107-197), in program order. -/
inductive Event where
  | create_dir (path : String)
  | fetch_manifests (arches : List String)
  | populate (manifests : List String)
  | resolve (request : List String)
  | guard (required_kb : Nat)
  | download (packages : List PackageMeta)
  | sync
  | mkdir_dev
  | bootstrap_apt
  | extract_bootstrap_pack
  | make_device_nodes
  | extract_package (filename : String)
  | write_script (filenames : List String) (clean_up : Bool)
  | include_script (path : String)
  | run_guest (argv : List String)
  deriving DecidableEq

/-- How a run of `main` ends: normal return, or a propagated error
(`.unwrap()` panic). -/
inductive Outcome where
  | success
  | panic (message : String)
  deriving DecidableEq

/-- The requested set for the full resolve (main.rs lines 124-135 and
152-154): `extra_packages` is the `--include` values extended by the
collected `--include-files` lines; `all_stages` is a clone of
`stub_packages` extended by `base_packages` and then by `extra_packages`. -/
def all_stages (args : Args) (cfg : Config) : List String :=
  let extra_packages := args.includes ++ collect_packages_from_lists args.include_file_lines
  cfg.stub_packages ++ cfg.base_packages ++ extra_packages

/-- The driver `main` (main.rs lines 107-197) over an environment of
external-call results: the outcome and the trace of observable actions, in
order.  Each modelled fallible step that `main` `.unwrap()`s becomes a
`panic` outcome; external steps whose code is outside this repository
(manifest fetch, pool population, download, apt bootstrap, device nodes,
script write, sync) are recorded as events with the results the environment
supplies. -/
def run_main (args : Args) (env : Env) : Outcome × List Event :=
  let stages := all_stages args env.config
  let t := env.resolve stages
  let full_kb := i64_as_u64 t.size_change
  let tail : Outcome × List Event :=
    match check_disk_usage full_kb (env.available 0) with
    | .error _ => (.panic "disk space", [])
    | .ok _ =>
      let rest2 : Outcome × List Event :=
        if args.dl_only then (.success, [])
        else
          let st := env.resolve env.config.stub_packages
          let stub_kb := i64_as_u64 st.size_change
          let rest3 : Outcome × List Event :=
            match check_disk_usage stub_kb (env.available 1) with
            | .error _ => (.panic "disk space", [])
            | .ok _ =>
              let ext := extract_packages env.extract st.packages
              let rest4 : Outcome × List Event :=
                match ext.1 with
                | .error e => (.panic e, [])
                | .ok _ =>
                  let rest5 : Outcome × List Event :=
                    if args.s1_only then (.success, [])
                    else
                      let rest6 : Outcome × List Event :=
                        match check_disk_usage full_kb (env.available 2) with
                        | .error _ => (.panic "disk space", [])
                        | .ok _ =>
                          match collect_filenames t.packages with
                          | .error e => (.panic e, [])
                          | .ok names =>
                            let scriptEvents : List Event :=
                              match args.extra_scripts with
                              | none => []
                              | some ss => ss.map Event.include_script
                            let rest7 : Outcome × List Event :=
                              if env.guest_ok then (.success, [.sync])
                              else (.panic "guest failed", [])
                            (rest7.1, Event.write_script names args.clean_up ::
                              (scriptEvents ++
                                Event.run_guest ["bash", "-e", env.script_name] :: rest7.2))
                      (rest6.1, Event.guard full_kb :: rest6.2)
                  (rest5.1, Event.sync :: rest5.2)
              (rest4.1, Event.mkdir_dev :: Event.bootstrap_apt ::
                Event.extract_bootstrap_pack :: Event.make_device_nodes ::
                (ext.2.map Event.extract_package ++ rest4.2))
          (rest3.1, Event.resolve env.config.stub_packages :: Event.guard stub_kb :: rest3.2)
      (rest2.1, Event.download t.packages :: Event.sync :: rest2.2)
  (tail.1,
    Event.create_dir "var/lib/apt/lists" :: Event.create_dir "var/cache/apt/archives" ::
    Event.fetch_manifests (append_all_arch args.arches) :: Event.populate env.manifests ::
    Event.resolve stages :: Event.guard full_kb :: tail.2)

/-- The event trace of a run that reaches `Stage 2 finished` (no early-exit
flag taken, every check and external step successful); `names` is the
result of `collect_filenames` on the full set. -/
def full_trace (args : Args) (env : Env) (names : List String) : List Event :=
  let stages := all_stages args env.config
  let t := env.resolve stages
  let st := env.resolve env.config.stub_packages
  let full_kb := i64_as_u64 t.size_change
  [.create_dir "var/lib/apt/lists", .create_dir "var/cache/apt/archives",
   .fetch_manifests (append_all_arch args.arches), .populate env.manifests,
   .resolve stages, .guard full_kb, .download t.packages, .sync,
   .resolve env.config.stub_packages, .guard (i64_as_u64 st.size_change),
   .mkdir_dev, .bootstrap_apt, .extract_bootstrap_pack, .make_device_nodes]
  ++ (extract_packages env.extract st.packages).2.map Event.extract_package
  ++ [.sync, .guard full_kb, .write_script names args.clean_up]
  ++ (match args.extra_scripts with
      | none => []
      | some ss => ss.map Event.include_script)
  ++ [.run_guest ["bash", "-e", env.script_name], .sync]

/-- A configuration whose stub request resolves to a package that the full
request's resolution does not contain. -/
def cexConfig : Config := ⟨["beta"], ["alpha"]⟩

/-- An environment in which the solver answers the stub request `["beta"]`
with package `beta` and every other request with package `alpha` only, so
the resolved stub set is not a subset of the resolved full set; space,
extraction and the guest all succeed. -/
def cexEnv : Env where
  config := cexConfig
  manifests := ["m"]
  resolve := fun req =>
    if req == ["beta"] then ⟨[⟨"beta", "pool/beta.deb"⟩], 64⟩
    else ⟨[⟨"alpha", "pool/alpha.deb"⟩], 128⟩
  available := fun _ => 1073741824
  extract := fun _ => .ok ()
  script_name := "setup.sh"
  guest_ok := true

/-- Arguments of a plain full run: one architecture, no early-exit flags, no
extra includes or scripts. -/
def cexArgs : Args := ⟨["amd64"], false, false, false, [], [], none⟩

/-- Arguments of a `--download-only` run. -/
def cexArgsDl : Args := ⟨["amd64"], true, false, false, [], [], none⟩

theorem collectLine_filter (lines : List String) :
    lines.filterMap collectLine =
      (lines.filter (fun l => !(startsWithHash l || l == ""))).map rustTrim := by
  induction lines with
  | nil => rfl
  | cons l rest ih =>
    by_cases h1 : startsWithHash l
    · simp [collectLine, h1, ih]
    · by_cases h2 : (l == "")
      · simp [collectLine, h1, h2, ih]
      · simp [collectLine, h1, h2, ih]

/-- Claim C4: `check_disk_usage required available` succeeds exactly when the
available bytes, converted to kilobytes by division by 1024, are at least
`required`; on failure the error carries the required kilobytes, the
available bytes, and the deficit `required - available / 1024` kilobytes. -/
theorem check_disk_usage_iff (required available : Nat) :
    (check_disk_usage required available = .ok () ↔ required ≤ available / 1024)
    ∧ (check_disk_usage required available =
          .error ⟨required, available, required - available / 1024⟩
        ↔ available / 1024 < required) := by
  by_cases h : available / 1024 < required <;>
    constructor <;>
    first
      | (simp [check_disk_usage, h]; omega)
      | simp [check_disk_usage, h]

/-- Claim C2 (amended): a size change of zero is required-0 and the guard
then succeeds for any amount of free space; but a NEGATIVE size change is
converted by the two's-complement cast `as u64` into `v + 2^64` kilobytes,
so the guard then fails for every representable amount of free space. -/
theorem guard_negative_wraps_zero_passes (v : Int) (available : Nat)
    (hlow : -(2 ^ 63) ≤ v) (hneg : v < 0) (hav : available < 2 ^ 64) :
    check_disk_usage (i64_as_u64 v) available =
      .error ⟨(v + 2 ^ 64).toNat, available, (v + 2 ^ 64).toNat - available / 1024⟩
    ∧ check_disk_usage (i64_as_u64 0) available = .ok () := by
  have hcast : i64_as_u64 v = (v + 2 ^ 64).toNat := by
    unfold i64_as_u64
    have hmod : v % (2 ^ 64) = v + 2 ^ 64 := by omega
    rw [hmod]
  constructor
  · have hlt : available / 1024 < (v + 2 ^ 64).toNat := by omega
    rw [hcast]
    unfold check_disk_usage
    rw [if_pos hlt]
  · simp [check_disk_usage, i64_as_u64]

/-- Witness for claim C2's amended theorem at `v = -1`,
`available = 2 ^ 62` bytes. -/
theorem guard_negative_wraps_zero_passes_witness :
    check_disk_usage (i64_as_u64 (-1)) (2 ^ 62) =
      .error ⟨((-1 : Int) + 2 ^ 64).toNat, 2 ^ 62,
        ((-1 : Int) + 2 ^ 64).toNat - 2 ^ 62 / 1024⟩
    ∧ check_disk_usage (i64_as_u64 0) (2 ^ 62) = .ok () :=
  guard_negative_wraps_zero_passes (-1) (2 ^ 62) (by decide) (by decide) (by decide)

/-- Counterexample to claim C2 as stated: the size change `-1` is negative,
yet the guard does not treat the requirement as 0 — with `2 ^ 63` bytes
free (a non-negative amount) the check fails, demanding
`2 ^ 64 - 1` kilobytes. -/
theorem guard_negative_counterexample :
    (-1 : Int) < 0
    ∧ check_disk_usage (i64_as_u64 (-1)) (2 ^ 63) =
        .error ⟨18446744073709551615, 9223372036854775808, 18437736874454810623⟩ := by
  exact ⟨by decide, rfl⟩

/-- Claim C3 (amended): `collect_packages_from_lists` returns, for each file
in order, exactly the lines that neither begin with `#` nor are literally
empty (so a whitespace-only line is KEPT and yields an empty entry), each
trimmed of leading and trailing whitespace, in source order; the number of
entries per file is the number of its non-`#` non-empty lines. -/
theorem collect_packages_filter_trim (files : List (List String)) :
    collect_packages_from_lists files =
      (files.map (fun lines =>
        (lines.filter (fun l => !(startsWithHash l || l == ""))).map rustTrim)).flatten
    ∧ ∀ lines : List String,
        (lines.filterMap collectLine).length =
          (lines.filter (fun l => !(startsWithHash l || l == ""))).length := by
  constructor
  · unfold collect_packages_from_lists
    simp only [collectLine_filter]
  · intro lines
    rw [collectLine_filter]
    simp

/-- Counterexample to claim C3 as stated: the line `"  "` is empty after
trimming, so per the claim it should be skipped; the code keeps it (its
emptiness test runs before trimming) and returns one empty entry. -/
theorem collect_blank_line_counterexample :
    collect_packages_from_lists [["  "]] = [""]
    ∧ List.filterMap collectLineSpec ["  "] = []
    ∧ rustTrim "  " = "" := by
  exact ⟨rfl, rfl, rfl⟩

theorem string_join_cons (s : String) (l : List String) :
    String.join (s :: l) = s ++ String.join l := by
  apply String.ext
  simp [String.data_join]

theorem foldl_append_eq_join (g : String → String) :
    ∀ (l : List String) (init : String),
      l.foldl (fun acc s => acc ++ g s) init = init ++ String.join (l.map g) := by
  intro l
  induction l with
  | nil =>
    intro init
    simp [String.join, String.append_empty]
  | cons s rest ih =>
    intro init
    simp only [List.foldl_cons, List.map_cons]
    rw [ih, string_join_cons, String.append_assoc]

/-- Claim C9: when extra scripts are given, `include_extra_scripts` appends
to the install script, after a fixed herald line, the exact content of each
script file in declaration order, each preceded by the comment banner
`\n# === {path}\n` naming that script's source path. -/
theorem include_extra_scripts_banners (scripts : List String)
    (contents : String → String) (output : String) :
    include_extra_scripts (some scripts) contents output =
      output ++ "\necho \x27Running additional scripts ...\x27;"
        ++ String.join (scripts.map (fun s => "\n# === " ++ s ++ "\n" ++ contents s)) := by
  unfold include_extra_scripts
  simp only [String.append_assoc]
  rw [foldl_append_eq_join (fun s => "\n# === " ++ (s ++ ("\n" ++ contents s))) scripts
    (output ++ "\necho \x27Running additional scripts ...\x27;"), String.append_assoc]

theorem run_main_trace_start (args : Args) (env : Env) :
    ∃ rest, (run_main args env).2 =
      [Event.create_dir "var/lib/apt/lists", Event.create_dir "var/cache/apt/archives",
       Event.fetch_manifests (append_all_arch args.arches), Event.populate env.manifests,
       Event.resolve (all_stages args env.config),
       Event.guard (i64_as_u64 (env.resolve (all_stages args env.config)).size_change)]
      ++ rest :=
  ⟨_, rfl⟩

/-- Counterexample to claim C6 as stated: when the caller already passes
`all`, nothing is appended, so the list handed to the manifest fetcher
contains `all` exactly as often as the caller supplied it — not once
more. -/
theorem append_all_counterexample :
    append_all_arch ["amd64", "all"] = ["amd64", "all"]
    ∧ ¬((append_all_arch ["amd64", "all"]).count "all"
        = (["amd64", "all"] : List String).count "all" + 1) := by
  exact ⟨rfl, by decide⟩

/-- Claim C6 (amended): the driver appends `all` to the architecture list
if and only if it is not already present, so the list passed to
`fetch_manifests` (the third recorded driver action) contains `all` exactly
`max 1 n` times, where `n` is the number of times the caller supplied it —
in particular at least once — and is the caller's list, possibly extended
by one final `all`. -/
theorem append_all_arch_spec (args : Args) (env : Env) :
    "all" ∈ append_all_arch args.arches
    ∧ (append_all_arch args.arches).count "all" = max 1 (args.arches.count "all")
    ∧ (∃ t, append_all_arch args.arches = args.arches ++ t ∧ (t = [] ∨ t = ["all"]))
    ∧ (run_main args env).2[2]? =
        some (Event.fetch_manifests (append_all_arch args.arches)) := by
  have key : append_all_arch args.arches =
      if "all" ∈ args.arches then args.arches else args.arches ++ ["all"] := by
    simp [append_all_arch]
  refine ⟨?_, ?_, ?_, ?_⟩
  · rw [key]
    by_cases h : "all" ∈ args.arches
    · rw [if_pos h]; exact h
    · rw [if_neg h]; exact List.mem_append_right _ (by simp)
  · rw [key]
    by_cases h : "all" ∈ args.arches
    · rw [if_pos h]
      have hpos : 0 < args.arches.count "all" := List.count_pos_iff.mpr h
      omega
    · rw [if_neg h]
      have hzero : args.arches.count "all" = 0 := List.count_eq_zero_of_not_mem h
      have hone : (["all"] : List String).count "all" = 1 := by decide
      rw [List.count_append, hzero, hone]
      decide
  · by_cases h : "all" ∈ args.arches
    · exact ⟨[], by rw [key, if_pos h, List.append_nil], Or.inl rfl⟩
    · exact ⟨["all"], by rw [key, if_neg h], Or.inr rfl⟩
  · obtain ⟨rest, hr⟩ := run_main_trace_start args env
    rw [hr]
    rfl

/-- Claim C7: the requested set passed to the full dependency resolve (the
fifth recorded driver action, present in every run) is the concatenation of
the config's stub packages, the config's base packages, the `--include`
packages, and the collected lines of the `--include-files` files. -/
theorem full_resolve_request_union (args : Args) (env : Env) :
    (run_main args env).2[4]? =
      some (Event.resolve (env.config.stub_packages ++ env.config.base_packages
        ++ args.includes ++ collect_packages_from_lists args.include_file_lines)) := by
  obtain ⟨rest, hr⟩ := run_main_trace_start args env
  rw [hr]
  simp [all_stages]

theorem run_main_full_eq (args : Args) (env : Env) (names : List String)
    (hdl : args.dl_only = false) (hs1 : args.s1_only = false)
    (h0 : check_disk_usage (i64_as_u64 (env.resolve (all_stages args env.config)).size_change)
        (env.available 0) = .ok ())
    (h1 : check_disk_usage (i64_as_u64 (env.resolve env.config.stub_packages).size_change)
        (env.available 1) = .ok ())
    (hex : (extract_packages env.extract (env.resolve env.config.stub_packages).packages).1
        = .ok ())
    (h2 : check_disk_usage (i64_as_u64 (env.resolve (all_stages args env.config)).size_change)
        (env.available 2) = .ok ())
    (hcf : collect_filenames (env.resolve (all_stages args env.config)).packages = .ok names)
    (hguest : env.guest_ok = true) :
    run_main args env = (.success, full_trace args env names) := by
  simp only [run_main, full_trace, hdl, hs1, hguest, h0, h1, h2, hex, hcf]
  simp [List.append_assoc]

/-- Claim C1 (amended): the driver performs NO subset check between the
resolved stub set and the resolved full set.  Whenever the early-exit flags
are off and every disk check, extraction step and the guest succeed, the run
completes successfully — no hypothesis relates the two resolved sets, so
the run completes even when the stub set contains packages absent from the
full set (see the witness, which uses exactly such a solver). -/
theorem run_main_no_stub_subset_check (args : Args) (env : Env) (names : List String)
    (hdl : args.dl_only = false) (hs1 : args.s1_only = false)
    (h0 : check_disk_usage (i64_as_u64 (env.resolve (all_stages args env.config)).size_change)
        (env.available 0) = .ok ())
    (h1 : check_disk_usage (i64_as_u64 (env.resolve env.config.stub_packages).size_change)
        (env.available 1) = .ok ())
    (hex : (extract_packages env.extract (env.resolve env.config.stub_packages).packages).1
        = .ok ())
    (h2 : check_disk_usage (i64_as_u64 (env.resolve (all_stages args env.config)).size_change)
        (env.available 2) = .ok ())
    (hcf : collect_filenames (env.resolve (all_stages args env.config)).packages = .ok names)
    (hguest : env.guest_ok = true) :
    (run_main args env).1 = Outcome.success := by
  rw [run_main_full_eq args env names hdl hs1 h0 h1 hex h2 hcf hguest]

/-- Witness for claim C1's amended theorem: the concrete run with
`cexEnv`, whose stub set is not a subset of its full set. -/
theorem run_main_no_stub_subset_check_witness :
    (run_main cexArgs cexEnv).1 = Outcome.success :=
  run_main_no_stub_subset_check cexArgs cexEnv ["alpha.deb"]
    rfl rfl rfl rfl rfl rfl rfl rfl

/-- Counterexample to claim C1 as stated: in the run with `cexEnv` the
solver's stub set (package `beta`) contains a package that is not in the
full set (package `alpha` only), yet the driver completes the run
successfully instead of aborting with an error. -/
theorem no_subset_enforcement_counterexample :
    (run_main cexArgs cexEnv).1 = Outcome.success
    ∧ ((cexEnv.resolve cexEnv.config.stub_packages).packages.all
        (fun p => (cexEnv.resolve (all_stages cexArgs cexEnv.config)).packages.contains p))
      = false := by
  exact ⟨rfl, rfl⟩

/-- Claim C5: in every run that is not stopped early (both early-exit flags
off) and that does not abort, the disk-space guard is invoked with the full
resolved set's size immediately before batch download begins, and invoked
with the very same full-set size again later, immediately before the
install script is written (hence before the guest is executed). -/
theorem guard_full_size_twice (args : Args) (env : Env) (names : List String)
    (hdl : args.dl_only = false) (hs1 : args.s1_only = false)
    (h0 : check_disk_usage (i64_as_u64 (env.resolve (all_stages args env.config)).size_change)
        (env.available 0) = .ok ())
    (h1 : check_disk_usage (i64_as_u64 (env.resolve env.config.stub_packages).size_change)
        (env.available 1) = .ok ())
    (hex : (extract_packages env.extract (env.resolve env.config.stub_packages).packages).1
        = .ok ())
    (h2 : check_disk_usage (i64_as_u64 (env.resolve (all_stages args env.config)).size_change)
        (env.available 2) = .ok ())
    (hcf : collect_filenames (env.resolve (all_stages args env.config)).packages = .ok names)
    (hguest : env.guest_ok = true) :
    ∃ pre mid post,
      (run_main args env).2 =
        pre
        ++ (Event.guard (i64_as_u64 (env.resolve (all_stages args env.config)).size_change)
            :: Event.download (env.resolve (all_stages args env.config)).packages :: mid)
        ++ (Event.guard (i64_as_u64 (env.resolve (all_stages args env.config)).size_change)
            :: Event.write_script names args.clean_up :: post) := by
  rw [run_main_full_eq args env names hdl hs1 h0 h1 hex h2 hcf hguest]
  refine ⟨[Event.create_dir "var/lib/apt/lists", Event.create_dir "var/cache/apt/archives",
           Event.fetch_manifests (append_all_arch args.arches), Event.populate env.manifests,
           Event.resolve (all_stages args env.config)],
          [Event.sync, Event.resolve env.config.stub_packages,
           Event.guard (i64_as_u64 (env.resolve env.config.stub_packages).size_change),
           Event.mkdir_dev, Event.bootstrap_apt, Event.extract_bootstrap_pack,
           Event.make_device_nodes]
          ++ (extract_packages env.extract
              (env.resolve env.config.stub_packages).packages).2.map Event.extract_package
          ++ [Event.sync],
          (match args.extra_scripts with
           | none => []
           | some ss => ss.map Event.include_script)
          ++ [Event.run_guest ["bash", "-e", env.script_name], Event.sync], ?_⟩
  simp [full_trace, List.append_assoc]

/-- Witness for claim C5 at the concrete run with `cexEnv`. -/
theorem guard_full_size_twice_witness :
    ∃ pre mid post,
      (run_main cexArgs cexEnv).2 =
        pre
        ++ (Event.guard (i64_as_u64 (cexEnv.resolve (all_stages cexArgs cexEnv.config)).size_change)
            :: Event.download (cexEnv.resolve (all_stages cexArgs cexEnv.config)).packages :: mid)
        ++ (Event.guard (i64_as_u64 (cexEnv.resolve (all_stages cexArgs cexEnv.config)).size_change)
            :: Event.write_script ["alpha.deb"] cexArgs.clean_up :: post) :=
  guard_full_size_twice cexArgs cexEnv ["alpha.deb"] rfl rfl rfl rfl rfl rfl rfl rfl

/-- Claim C8: with `--download-only` set (and the first disk check passing),
the run ends right after batch download and the following sync with exit
status 0: the trace is exactly dir creation, manifest fetch, pool
population, the single full resolve, the disk guard, the batch download and
a sync — the stub set is never resolved (exactly one resolve action), no
`dev` directory is created, no device nodes are made, nothing is extracted,
no install script is written and no guest is executed. -/
theorem download_only_stops (args : Args) (env : Env)
    (hdl : args.dl_only = true)
    (h0 : check_disk_usage (i64_as_u64 (env.resolve (all_stages args env.config)).size_change)
        (env.available 0) = .ok ()) :
    run_main args env =
      (Outcome.success,
        [Event.create_dir "var/lib/apt/lists", Event.create_dir "var/cache/apt/archives",
         Event.fetch_manifests (append_all_arch args.arches), Event.populate env.manifests,
         Event.resolve (all_stages args env.config),
         Event.guard (i64_as_u64 (env.resolve (all_stages args env.config)).size_change),
         Event.download (env.resolve (all_stages args env.config)).packages, Event.sync])
    ∧ ((run_main args env).2.countP
        (fun e => match e with | Event.resolve _ => true | _ => false)) = 1
    ∧ Event.mkdir_dev ∉ (run_main args env).2
    ∧ Event.make_device_nodes ∉ (run_main args env).2
    ∧ (∀ fns c, Event.write_script fns c ∉ (run_main args env).2)
    ∧ (∀ fn, Event.extract_package fn ∉ (run_main args env).2)
    ∧ (∀ argv, Event.run_guest argv ∉ (run_main args env).2) := by
  have heq : run_main args env =
      (Outcome.success,
        [Event.create_dir "var/lib/apt/lists", Event.create_dir "var/cache/apt/archives",
         Event.fetch_manifests (append_all_arch args.arches), Event.populate env.manifests,
         Event.resolve (all_stages args env.config),
         Event.guard (i64_as_u64 (env.resolve (all_stages args env.config)).size_change),
         Event.download (env.resolve (all_stages args env.config)).packages, Event.sync]) := by
    simp only [run_main, hdl, h0]
    simp
  refine ⟨heq, ?_, ?_, ?_, ?_, ?_, ?_⟩ <;> rw [heq] <;> simp [List.countP_cons]

/-- Witness for claim C8 at the concrete `--download-only` run with
`cexEnv`. -/
theorem download_only_stops_witness :
    Event.mkdir_dev ∉ (run_main cexArgsDl cexEnv).2
    ∧ (∀ argv, Event.run_guest argv ∉ (run_main cexArgsDl cexEnv).2) :=
  ⟨(download_only_stops cexArgsDl cexEnv rfl rfl).2.2.1,
   (download_only_stops cexArgsDl cexEnv rfl rfl).2.2.2.2.2.2⟩

theorem extract_packages_ok_mem (env : String → Except String Unit) :
    ∀ l : List PackageMeta, (extract_packages env l).1 = Except.ok () →
      ∀ p ∈ l, (pathFileName p.path).isSome = true := by
  intro l
  induction l with
  | nil =>
    intro _ p hp
    cases hp
  | cons q rest ih =>
    intro h p hp
    unfold extract_packages at h
    cases hq : pathFileName q.path with
    | none =>
      rw [hq] at h
      simp at h
    | some fn =>
      rw [hq] at h
      simp only [] at h
      cases he : env fn with
      | error e =>
        rw [he] at h
        simp at h
      | ok u =>
        rw [he] at h
        simp at h
        rcases List.mem_cons.mp hp with rfl | hp'
        · rw [hq]; rfl
        · exact ih h p hp'

theorem collect_filenames_ok_mem :
    ∀ l : List PackageMeta, ∀ fns, collect_filenames l = Except.ok fns →
      ∀ p ∈ l, (pathFileName p.path).isSome = true := by
  intro l
  induction l with
  | nil =>
    intro _ _ p hp
    cases hp
  | cons q rest ih =>
    intro fns h p hp
    unfold collect_filenames at h
    cases hq : pathFileName q.path with
    | none =>
      rw [hq] at h
      simp at h
    | some fn =>
      rw [hq] at h
      cases hr : collect_filenames rest with
      | error e =>
        rw [hr] at h
        simp at h
      | ok fns' =>
        rw [hr] at h
        rcases List.mem_cons.mp hp with rfl | hp'
        · rw [hq]; rfl
        · exact ih fns' hr p hp'

theorem extract_packages_stops_at_bad (env : String → Except String Unit)
    (pre post : List PackageMeta) (bad : PackageMeta)
    (hpre : ∀ p ∈ pre, ∃ fn, pathFileName p.path = some fn ∧ env fn = Except.ok ())
    (hbad : pathFileName bad.path = none) :
    extract_packages env (pre ++ bad :: post) =
      (Except.error "Unable to determine package filename",
        pre.filterMap (fun p => pathFileName p.path)) := by
  induction pre with
  | nil =>
    simp [extract_packages, hbad]
  | cons q rest ih =>
    obtain ⟨fn, hq, he⟩ := hpre q (List.mem_cons_self q rest)
    have ih' := ih (fun p hp => hpre p (List.mem_cons_of_mem q hp))
    simp only [List.cons_append]
    unfold extract_packages
    rw [hq]
    simp only []
    rw [he]
    simp only []
    rw [ih']
    simp [List.filterMap_cons, hq]

theorem collect_filenames_stops_at_bad (pre post : List PackageMeta) (bad : PackageMeta)
    (hpre : ∀ p ∈ pre, (pathFileName p.path).isSome = true)
    (hbad : pathFileName bad.path = none) :
    collect_filenames (pre ++ bad :: post) =
      Except.error "Unable to determine package filename" := by
  induction pre with
  | nil =>
    simp [collect_filenames, hbad]
  | cons q rest ih =>
    have hq := hpre q (List.mem_cons_self q rest)
    obtain ⟨fn, hfn⟩ := Option.isSome_iff_exists.mp hq
    have ih' := ih (fun p hp => hpre p (List.mem_cons_of_mem q hp))
    simp only [List.cons_append]
    unfold collect_filenames
    rw [hfn, ih']

/-- Claim C10: `extract_packages` and `collect_filenames` succeed only if
every package's path has a final filename component; when the packages are
some successfully-handled prefix, then a package whose path has no final
component (for instance the empty path), both fail with the error
`Unable to determine package filename`, and `extract_packages` — which
works strictly in list order — has opened exactly the prefix's archives and
none after the failing package. -/
theorem filename_failure_stops (env : String → Except String Unit)
    (pre post : List PackageMeta) (bad : PackageMeta)
    (hpre : ∀ p ∈ pre, ∃ fn, pathFileName p.path = some fn ∧ env fn = Except.ok ())
    (hbad : pathFileName bad.path = none) :
    extract_packages env (pre ++ bad :: post) =
      (Except.error "Unable to determine package filename",
        pre.filterMap (fun p => pathFileName p.path))
    ∧ collect_filenames (pre ++ bad :: post) =
        Except.error "Unable to determine package filename"
    ∧ (∀ l : List PackageMeta,
        ((extract_packages env l).1 = Except.ok () →
          ∀ p ∈ l, (pathFileName p.path).isSome = true)
        ∧ (∀ fns, collect_filenames l = Except.ok fns →
            ∀ p ∈ l, (pathFileName p.path).isSome = true)) := by
  refine ⟨extract_packages_stops_at_bad env pre post bad hpre hbad,
          collect_filenames_stops_at_bad pre post bad (fun p hp => ?_) hbad,
          fun l => ⟨extract_packages_ok_mem env l,
                    fun fns h => collect_filenames_ok_mem l fns h⟩⟩
  obtain ⟨fn, hfn, _⟩ := hpre p hp
  rw [hfn]
  rfl

/-- Witness for claim C10: a one-package prefix with a well-formed path,
followed by a package whose path is empty. -/
theorem filename_failure_stops_witness :
    extract_packages (fun _ => Except.ok ())
        ([⟨"alpha", "pool/alpha.deb"⟩] ++ (⟨"bad", ""⟩ : PackageMeta) :: []) =
      (Except.error "Unable to determine package filename",
        [(⟨"alpha", "pool/alpha.deb"⟩ : PackageMeta)].filterMap
          (fun p => pathFileName p.path))
    ∧ collect_filenames ([⟨"alpha", "pool/alpha.deb"⟩] ++ (⟨"bad", ""⟩ : PackageMeta) :: []) =
        Except.error "Unable to determine package filename"
    ∧ (∀ l : List PackageMeta,
        ((extract_packages (fun _ => Except.ok ()) l).1 = Except.ok () →
          ∀ p ∈ l, (pathFileName p.path).isSome = true)
        ∧ (∀ fns, collect_filenames l = Except.ok fns →
            ∀ p ∈ l, (pathFileName p.path).isSome = true)) :=
  filename_failure_stops (fun _ => Except.ok ()) [⟨"alpha", "pool/alpha.deb"⟩] []
    ⟨"bad", ""⟩
    (by
      intro p hp
      have hp' : p = (⟨"alpha", "pool/alpha.deb"⟩ : PackageMeta) := by simpa using hp
      subst hp'
      exact ⟨"alpha.deb", rfl, rfl⟩)
    rfl

end AOSCBootstrap
